import Mathlib

/-!
Verification of the knowledge-backend core against its specification.

Shallow embedding of the repository sources:
- vector_store.py : KnowledgeStore.chunk_text, KnowledgeStore.ingest_documents
- sentiment.py    : analyze_sentiment and both provider post-processing paths
- mock_history.py : the synthetic customer-history engine

Numbers are modelled with exact rationals; Python float rounding
round(x, k) is modelled as exact half-even decimal rounding.  Randomness
is modelled by oracle streams: every call the code makes to the seeded
random generator is replaced by a value read from an input stream, with
the achievable range of each call recorded as an admissibility
predicate.  Wall-clock timing fields are modelled as 0.
-/

/-- Half-even integer rounding of a rational: the semantics of Python round(x). -/
def roundHalfEven (q : ℚ) : ℤ :=
  let n := ⌊q⌋
  let f := q - (n : ℚ)
  if f < 1/2 then n
  else if 1/2 < f then n + 1
  else if n % 2 = 0 then n else n + 1

/-- Models Python round(x, k) in exact rational arithmetic. -/
def pyRound (q : ℚ) (k : ℕ) : ℚ := (roundHalfEven (q * 10 ^ k) : ℚ) / 10 ^ k

/-- Worker for pySplit: the accumulator holds the current word, reversed. -/
def pySplitAux : List Char → List Char → List String
  | [], acc => if acc.isEmpty then [] else [String.mk acc.reverse]
  | c :: cs, acc =>
    if c.isWhitespace then
      if acc.isEmpty then pySplitAux cs []
      else String.mk acc.reverse :: pySplitAux cs []
    else pySplitAux cs (c :: acc)

/-- Semantics of Python text.split() with no separator argument:
split on runs of whitespace, producing no empty words. -/
def pySplit (s : String) : List String := pySplitAux s.data []

/-- Semantics of Python ' '.join(words). -/
def joinWords : List String → String
  | [] => ""
  | [w] => w
  | w :: ws => w ++ " " ++ joinWords ws

/-- Semantics of Python range(start, stop, step) for a positive step
(chunk_text only ever runs it with step = chunk_size - overlap = 450 > 0). -/
def pyRange (start stop step : ℕ) : List ℕ :=
  if _h : 0 < step ∧ start < stop then start :: pyRange (start + step) stop step
  else []
termination_by stop - start
decreasing_by omega

/-- KnowledgeStore.chunk_text: split text into overlapping word windows
of chunk_size words, advancing by chunk_size - overlap words each step,
keeping only non-empty joined chunks. -/
def chunk_text (text : String) (chunk_size overlap : ℕ) : List String :=
  let words := pySplit text
  (pyRange 0 words.length (chunk_size - overlap)).filterMap (fun i =>
    let chunk := joinWords ((words.drop i).take chunk_size)
    if chunk = "" then none else some chunk)

structure Document where
  id : String
  title : String
  content : String
  url : String
  category : String
deriving DecidableEq

structure IngestStats where
  documents_ingested : ℕ
  chunks_created : ℕ
  total_documents : ℕ
deriving DecidableEq

/-- KnowledgeStore.ingest_documents, reduced to its counting behaviour:
a document with falsy ("") content is skipped; otherwise it is chunked,
every chunk is added to the collection, and the document is counted.
initialCount is the number of chunks already in the collection;
total_documents mirrors collection.count() after the adds (each chunk id
is assumed fresh, as in the code's intended use). -/
def ingest_documents (initialCount : ℕ) (documents : List Document) : IngestStats :=
  documents.foldl (fun acc doc =>
    if doc.content = "" then acc
    else
      let chunks := chunk_text doc.content 500 50
      { documents_ingested := acc.documents_ingested + 1
        chunks_created := acc.chunks_created + chunks.length
        total_documents := acc.total_documents + chunks.length })
    { documents_ingested := 0, chunks_created := 0, total_documents := initialCount }

theorem string_mk_ne_empty {l : List Char} (h : l ≠ []) : String.mk l ≠ "" := by
  intro he
  exact h (congrArg String.data he)

theorem pySplitAux_mem_ne {w : String} :
    ∀ (cs acc : List Char), w ∈ pySplitAux cs acc → w ≠ "" := by
  intro cs
  induction cs with
  | nil =>
    intro acc hmem
    by_cases ha : acc.isEmpty
    · simp [pySplitAux, ha] at hmem
    · simp [pySplitAux, ha] at hmem
      subst hmem
      exact string_mk_ne_empty (by simpa [List.isEmpty_iff] using ha)
  | cons c cs ih =>
    intro acc hmem
    by_cases hws : c.isWhitespace
    · by_cases ha : acc.isEmpty
      · rw [pySplitAux, if_pos hws, if_pos ha] at hmem
        exact ih [] hmem
      · rw [pySplitAux, if_pos hws, if_neg ha] at hmem
        rcases List.mem_cons.mp hmem with h | h
        · subst h
          exact string_mk_ne_empty (by simpa [List.isEmpty_iff] using ha)
        · exact ih [] h
    · rw [pySplitAux, if_neg hws] at hmem
      exact ih (c :: acc) hmem

theorem pySplit_mem_ne {s : String} {w : String} (h : w ∈ pySplit s) : w ≠ "" :=
  pySplitAux_mem_ne s.data [] h

theorem joinWords_head_ne {w : String} (ws : List String) (hw : w ≠ "") :
    joinWords (w :: ws) ≠ "" := by
  cases ws with
  | nil => simpa [joinWords] using hw
  | cons a t =>
    intro he
    have hlen := congrArg String.length he
    rw [show joinWords (w :: a :: t) = w ++ " " ++ joinWords (a :: t) from rfl] at hlen
    rw [String.length_append, String.length_append,
      show String.length " " = 1 from rfl, show String.length "" = 0 from rfl] at hlen
    omega

theorem pyRange_getElem?_aux (s : ℕ) (hs : 0 < s) :
    ∀ fuel a b, b - a ≤ fuel → ∀ k,
      (pyRange a b s)[k]? = if a + s * k < b then some (a + s * k) else none := by
  intro fuel
  induction fuel with
  | zero =>
    intro a b hb k
    rw [pyRange]
    have hc : ¬(0 < s ∧ a < b) := by intro h2; omega
    rw [dif_neg hc]
    have : ¬(a + s * k < b) := by omega
    simp [this]
  | succ fuel ih =>
    intro a b hb k
    rw [pyRange]
    by_cases hc : 0 < s ∧ a < b
    · rw [dif_pos hc]
      cases k with
      | zero => simp [hc.2]
      | succ k =>
        rw [List.getElem?_cons_succ, ih (a + s) b (by omega) k]
        have harith : a + s + s * k = a + s * (k + 1) := by
          rw [Nat.mul_succ]; omega
        rw [harith]
    · rw [dif_neg hc]
      have : ¬(a + s * k < b) := by
        have hab : ¬(a < b) := fun hab => hc ⟨hs, hab⟩
        omega
      simp [this]

theorem pyRange_getElem? (s : ℕ) (hs : 0 < s) (a b k : ℕ) :
    (pyRange a b s)[k]? = if a + s * k < b then some (a + s * k) else none :=
  pyRange_getElem?_aux s hs b a b (by omega) k

theorem pyRange_length_aux (s : ℕ) (hs : 0 < s) :
    ∀ fuel a b, b - a ≤ fuel → (pyRange a b s).length = (b - a + s - 1) / s := by
  intro fuel
  induction fuel with
  | zero =>
    intro a b hb
    rw [pyRange]
    have hc : ¬(0 < s ∧ a < b) := by intro h2; omega
    rw [dif_neg hc]
    have h0 : b - a = 0 := by omega
    rw [h0, List.length_nil]
    symm
    exact Nat.div_eq_of_lt (by omega)
  | succ fuel ih =>
    intro a b hb
    rw [pyRange]
    by_cases hc : 0 < s ∧ a < b
    · rw [dif_pos hc]
      rw [List.length_cons, ih (a + s) b (by omega)]
      have hd : 1 ≤ b - a := by omega
      by_cases hbs : b ≤ a + s
      · have h1 : b - (a + s) = 0 := by omega
        rw [h1]
        have h2 : (0 + s - 1) / s = 0 := Nat.div_eq_of_lt (by omega)
        rw [h2]
        have h3 : b - a + s - 1 = (b - a - 1) + s := by omega
        rw [h3, Nat.add_div_right _ hs, Nat.div_eq_of_lt (by omega)]
      · have h1 : b - (a + s) + s - 1 = b - a - 1 := by omega
        rw [h1]
        have h3 : b - a + s - 1 = (b - a - 1) + s := by omega
        rw [h3, Nat.add_div_right _ hs]
    · rw [dif_neg hc]
      have hab : ¬(a < b) := fun hab => hc ⟨hs, hab⟩
      have h0 : b - a = 0 := by omega
      rw [h0, List.length_nil]
      symm
      exact Nat.div_eq_of_lt (by omega)

theorem pyRange_length (s : ℕ) (hs : 0 < s) (a b : ℕ) :
    (pyRange a b s).length = (b - a + s - 1) / s :=
  pyRange_length_aux s hs b a b (by omega)

theorem pyRange_lt_of_mem {s a b i : ℕ} (hs : 0 < s) (h : i ∈ pyRange a b s) : i < b := by
  rcases List.mem_iff_getElem?.mp h with ⟨k, hk⟩
  rw [pyRange_getElem? s hs a b k] at hk
  by_cases hc : a + s * k < b
  · rw [if_pos hc] at hk
    have := Option.some.inj hk
    omega
  · rw [if_neg hc] at hk
    exact absurd hk (by simp)

theorem filterMap_eq_map_of_forall {α β : Type _} (f : α → Option β) (g : α → β) :
    ∀ l : List α, (∀ x ∈ l, f x = some (g x)) → l.filterMap f = l.map g := by
  intro l
  induction l with
  | nil => intro _; rfl
  | cons a t ih =>
    intro h
    rw [List.filterMap_cons, h a (by simp), List.map_cons, ih (fun x hx => h x (by simp [hx]))]

theorem chunk_joined_ne {words : List String} (hw : ∀ w ∈ words, w ≠ "") {i : ℕ}
    (hi : i < words.length) : joinWords ((words.drop i).take 500) ≠ "" := by
  cases hdrop : words.drop i with
  | nil =>
    rw [List.drop_eq_nil_iff] at hdrop
    omega
  | cons w t =>
    rw [show (500 : ℕ) = 499 + 1 from rfl, List.take_succ_cons]
    refine joinWords_head_ne _ (hw w ?_)
    have : w ∈ words.drop i := by rw [hdrop]; simp
    exact List.mem_of_mem_drop this

theorem chunk_text_eq_map (text : String) :
    chunk_text text 500 50 =
      (pyRange 0 (pySplit text).length 450).map
        (fun i => joinWords (((pySplit text).drop i).take 500)) := by
  rw [chunk_text]
  refine filterMap_eq_map_of_forall _ _ _ ?_
  intro i hi
  have hlt : i < (pySplit text).length := pyRange_lt_of_mem (by omega) hi
  have hne := chunk_joined_ne (fun w hw => pySplit_mem_ne hw) hlt
  simp only [if_neg hne]

/-- C1: for a document whose content has N >= 1 whitespace-delimited words,
chunk_text with chunk_size 500 and overlap 50 produces exactly
ceil(N / 450) = (N + 449) / 450 chunks; chunk k is the join of the word
window starting at word 450 * k; and whenever both the last-50-word
window of chunk k and the first-50-word window of chunk k+1 exist
(i.e. chunk k is full and chunk k+1 has at least 50 words), they are the
same 50 words. -/
theorem C1_chunking_invariant (text : String)
    (hN : 1 ≤ (pySplit text).length) :
    (chunk_text text 500 50).length = ((pySplit text).length + 449) / 450 ∧
    (∀ k, 450 * k < (pySplit text).length →
      (chunk_text text 500 50)[k]? =
        some (joinWords (((pySplit text).drop (450 * k)).take 500))) ∧
    (∀ k, 450 * (k + 1) + 50 ≤ (pySplit text).length →
      (((pySplit text).drop (450 * k)).take 500).length = 500 ∧
      50 ≤ (((pySplit text).drop (450 * (k + 1))).take 500).length ∧
      (((pySplit text).drop (450 * k)).take 500).drop 450 =
        (((pySplit text).drop (450 * (k + 1))).take 500).take 50) := by
  refine ⟨?_, ?_, ?_⟩
  · rw [chunk_text_eq_map, List.length_map, pyRange_length 450 (by omega)]
    omega
  · intro k hk
    rw [chunk_text_eq_map, List.getElem?_map, pyRange_getElem? 450 (by omega),
      if_pos (by omega : 0 + 450 * k < (pySplit text).length)]
    simp
  · intro k hk
    have hmul : 450 * (k + 1) = 450 * k + 450 := by ring
    refine ⟨?_, ?_, ?_⟩
    · rw [List.length_take, List.length_drop]
      omega
    · rw [List.length_take, List.length_drop]
      omega
    · rw [List.drop_take, List.take_take]
      rw [List.drop_drop, hmul]
      norm_num

/-- Witness for C1 at the concrete three-word document "a b c". -/
theorem C1_chunking_invariant_witness :
    1 ≤ (pySplit "a b c").length ∧
    (chunk_text "a b c" 500 50).length = ((pySplit "a b c").length + 449) / 450 :=
  ⟨by decide, (C1_chunking_invariant "a b c" (by decide)).1⟩

theorem pySplitAux_all_ws :
    ∀ cs : List Char, (∀ c ∈ cs, c.isWhitespace) → pySplitAux cs [] = [] := by
  intro cs
  induction cs with
  | nil => intro _; rfl
  | cons c t ih =>
    intro h
    rw [pySplitAux, if_pos (h c (by simp)), if_pos List.isEmpty_nil]
    exact ih (fun x hx => h x (by simp [hx]))

theorem chunk_text_of_all_ws {content : String}
    (h : ∀ c ∈ content.data, c.isWhitespace) : chunk_text content 500 50 = [] := by
  have hw : pySplit content = [] := pySplitAux_all_ws content.data h
  simp [chunk_text, hw, pyRange]

/-- C10: a document whose content is non-empty but consists only of
whitespace is not skipped by ingest_documents: it is counted as ingested
and contributes zero chunks; only a document with content equal to the
empty string is skipped and left uncounted. -/
theorem C10_whitespace_content_ingested (c0 : ℕ) (doc : Document) :
    (doc.content = "" → ingest_documents c0 [doc] =
      { documents_ingested := 0, chunks_created := 0, total_documents := c0 }) ∧
    (doc.content ≠ "" → (∀ c ∈ doc.content.data, c.isWhitespace) →
      ingest_documents c0 [doc] =
        { documents_ingested := 1, chunks_created := 0, total_documents := c0 }) := by
  constructor
  · intro h
    simp [ingest_documents, h]
  · intro h hws
    simp [ingest_documents, h, chunk_text_of_all_ws hws]

/-- Witness for C10: ingesting a single-space document counts it and
creates no chunks. -/
theorem C10_whitespace_content_ingested_witness :
    (" " : String) ≠ "" ∧
    ingest_documents 7 [⟨"d1", "T", " ", "u", "General"⟩] =
      { documents_ingested := 1, chunks_created := 0, total_documents := 7 } :=
  ⟨by decide, (C10_whitespace_content_ingested 7 ⟨"d1", "T", " ", "u", "General"⟩).2
    (by decide) (by decide)⟩

/-! ## Sentiment analysis (sentiment.py)

The two external classifiers (the VADER lexicon scorer and the
transformer pipeline) are inputs of the embedding: each is a function
that either returns its raw output or fails with an exception message
(covering both lazy initialization failure and analysis failure).  All
post-processing of the raw outputs is embedded from the source. -/

/-- Python text.strip(): remove leading and trailing whitespace. -/
def pyStrip (s : String) : String :=
  String.mk (((s.data.dropWhile Char.isWhitespace).reverse.dropWhile
    Char.isWhitespace).reverse)

/-- Python text[:512] applied when len(text) > 512. -/
def truncate512 (s : String) : String :=
  if 512 < s.length then String.mk (s.data.take 512) else s

/-- Python s.upper(), character-wise (the classifier labels are ASCII). -/
def pyUpper (s : String) : String := String.mk (s.data.map Char.toUpper)

inductive SentimentProvider where
  | vader
  | transformer
deriving DecidableEq

def SentimentProvider.value : SentimentProvider → String
  | .vader => "vader"
  | .transformer => "transformer"

/-- The shape of the breakdown dict of a SentimentResult. -/
inductive Breakdown where
  | error (msg : String)
  | vader (pos neu neg compound : ℚ)
  | transformer (label : String) (raw_score : ℚ) (model : String)
deriving DecidableEq

structure SentimentResult where
  provider : String
  sentiment : String
  score : ℚ
  confidence : ℚ
  processing_time_ms : ℕ
  breakdown : Breakdown
deriving DecidableEq

/-- Raw output of the external VADER polarity_scores call. -/
structure VaderScores where
  pos : ℚ
  neu : ℚ
  neg : ℚ
  compound : ℚ
deriving DecidableEq

/-- VaderSentimentAnalyzer.analyze, post-processing of the raw scores:
label thresholds at plus/minus 0.05 and the three-band confidence
formula. -/
def vaderAnalyze (s : VaderScores) : SentimentResult :=
  let compound := s.compound
  let sentiment :=
    if compound ≥ 1/20 then "positive"
    else if compound ≤ -(1/20) then "negative"
    else "neutral"
  let abs_compound := |compound|
  let confidence :=
    if abs_compound ≥ 6/10 then min 95 (75 + abs_compound * 30)
    else if abs_compound ≥ 3/10 then 55 + abs_compound * 40
    else 40 + abs_compound * 50
  { provider := "vader"
    sentiment := sentiment
    score := pyRound compound 4
    confidence := pyRound confidence 1
    processing_time_ms := 0
    breakdown := .vader (pyRound s.pos 4) (pyRound s.neu 4) (pyRound s.neg 4)
      (pyRound s.compound 4) }

/-- TransformerSentimentAnalyzer.analyze, post-processing of the raw
classifier output (label, raw probability): POSITIVE keeps the raw
probability as score, otherwise the sign is flipped; a raw probability
below 0.6 forces a neutral result with score 0. -/
def transformerAnalyze (modelName lab : String) (raw : ℚ) : SentimentResult :=
  let label := pyUpper lab
  let sentiment0 := if label = "POSITIVE" then "positive" else "negative"
  let score0 : ℚ := if label = "POSITIVE" then raw else -raw
  let sentiment := if raw < 6/10 then "neutral" else sentiment0
  let score := if raw < 6/10 then 0 else score0
  { provider := "transformer"
    sentiment := sentiment
    score := pyRound score 4
    confidence := pyRound (raw * 100) 1
    processing_time_ms := 0
    breakdown := .transformer label (pyRound raw 4) modelName }

/-- analyze_sentiment: the main entry point.  vaderRun and transformerRun
are the external classifiers (Except.error models a raised exception,
from lazy loading or from analysis). -/
def analyze_sentiment (vaderRun : String → Except String VaderScores)
    (transformerRun : String → Except String (String × ℚ)) (modelName : String)
    (provider : SentimentProvider) (text : String) : SentimentResult :=
  if text = "" ∨ pyStrip text = "" then
    { provider := provider.value
      sentiment := "neutral"
      score := 0
      confidence := 50
      processing_time_ms := 0
      breakdown := .error "Empty text provided" }
  else
    match provider with
    | .vader =>
      match vaderRun text with
      | .ok s => vaderAnalyze s
      | .error e =>
        { provider := provider.value, sentiment := "neutral", score := 0,
          confidence := 0, processing_time_ms := 0, breakdown := .error e }
    | .transformer =>
      match transformerRun (truncate512 text) with
      | .ok lr => transformerAnalyze modelName lr.1 lr.2
      | .error e =>
        { provider := provider.value, sentiment := "neutral", score := 0,
          confidence := 0, processing_time_ms := 0, breakdown := .error e }

/-- C7: empty or whitespace-only text short-circuits to a neutral result
with score 0, confidence 50 and an empty-text error breakdown, and the
result does not depend on either provider (neither is invoked). -/
theorem C7_empty_text_shortcircuit
    (vaderRun : String → Except String VaderScores)
    (transformerRun : String → Except String (String × ℚ)) (modelName : String)
    (provider : SentimentProvider) (text : String)
    (h : text = "" ∨ pyStrip text = "") :
    analyze_sentiment vaderRun transformerRun modelName provider text =
      { provider := provider.value, sentiment := "neutral", score := 0,
        confidence := 50, processing_time_ms := 0,
        breakdown := .error "Empty text provided" } ∧
    (∀ (vaderRun2 : String → Except String VaderScores)
        (transformerRun2 : String → Except String (String × ℚ)),
      analyze_sentiment vaderRun2 transformerRun2 modelName provider text =
        analyze_sentiment vaderRun transformerRun modelName provider text) := by
  have hconst : ∀ (v : String → Except String VaderScores)
      (t : String → Except String (String × ℚ)),
      analyze_sentiment v t modelName provider text =
        { provider := provider.value, sentiment := "neutral", score := 0,
          confidence := 50, processing_time_ms := 0,
          breakdown := .error "Empty text provided" } := by
    intro v t
    rw [analyze_sentiment.eq_def, if_pos h]
  exact ⟨hconst _ _, fun v2 t2 => (hconst v2 t2).trans (hconst _ _).symm⟩

/-- Witness for C7 at whitespace-only text and providers that would fail
if they were ever invoked. -/
theorem C7_empty_text_shortcircuit_witness :
    (("  " : String) = "" ∨ pyStrip "  " = "") ∧
    analyze_sentiment (fun _ => .error "boom") (fun _ => .error "boom")
      "distilbert-base-uncased-finetuned-sst-2-english" .vader "  " =
      { provider := "vader", sentiment := "neutral", score := 0,
        confidence := 50, processing_time_ms := 0,
        breakdown := .error "Empty text provided" } :=
  ⟨by decide,
    (C7_empty_text_shortcircuit (fun _ => .error "boom") (fun _ => .error "boom")
      "distilbert-base-uncased-finetuned-sst-2-english" .vader "  " (by decide)).1⟩

/-- C8: for the transformer provider on non-empty text, a raw probability
below 0.6 forces a neutral result with score 0 regardless of the label;
with raw probability 0.61 and label POSITIVE the result is positive with
score 0.61; a non-POSITIVE label flips the score sign when the raw
probability is at least 0.6. -/
theorem C8_transformer_confidence_gate
    (vaderRun : String → Except String VaderScores)
    (transformerRun : String → Except String (String × ℚ)) (modelName : String)
    (text lab : String) (raw : ℚ)
    (htext : ¬(text = "" ∨ pyStrip text = ""))
    (hrun : transformerRun (truncate512 text) = .ok (lab, raw)) :
    (raw < 6/10 →
      (analyze_sentiment vaderRun transformerRun modelName .transformer
        text).sentiment = "neutral" ∧
      (analyze_sentiment vaderRun transformerRun modelName .transformer
        text).score = 0) ∧
    (raw = 61/100 → pyUpper lab = "POSITIVE" →
      (analyze_sentiment vaderRun transformerRun modelName .transformer
        text).sentiment = "positive" ∧
      (analyze_sentiment vaderRun transformerRun modelName .transformer
        text).score = 61/100) ∧
    (6/10 ≤ raw → pyUpper lab ≠ "POSITIVE" →
      (analyze_sentiment vaderRun transformerRun modelName .transformer
        text).sentiment = "negative" ∧
      (analyze_sentiment vaderRun transformerRun modelName .transformer
        text).score = pyRound (-raw) 4) := by
  rw [analyze_sentiment.eq_def, if_neg htext]
  rw [hrun]
  refine ⟨?_, ?_, ?_⟩
  · intro hlow
    constructor
    · simp [transformerAnalyze, if_pos hlow]
    · simp [transformerAnalyze, if_pos hlow]
      norm_num [pyRound, roundHalfEven]
  · intro hraw hpos
    subst hraw
    have hnotlow : ¬((61 : ℚ)/100 < 6/10) := by norm_num
    constructor
    · simp [transformerAnalyze, hpos, hnotlow]
    · simp [transformerAnalyze, hpos, hnotlow]
      norm_num [pyRound, roundHalfEven]
  · intro hge hneg
    have hnotlow : ¬(raw < 6/10) := by exact not_lt.mpr hge
    constructor
    · simp [transformerAnalyze, hneg, hnotlow]
    · simp [transformerAnalyze, hneg, hnotlow]

/-- Witness for C8: a concrete classifier answering (POSITIVE, 0.61). -/
theorem C8_transformer_confidence_gate_witness :
    (analyze_sentiment (fun _ => .error "unused")
      (fun _ => .ok ("POSITIVE", 61/100))
      "distilbert-base-uncased-finetuned-sst-2-english" .transformer
      "great product").sentiment = "positive" ∧
    (analyze_sentiment (fun _ => .error "unused")
      (fun _ => .ok ("POSITIVE", 61/100))
      "distilbert-base-uncased-finetuned-sst-2-english" .transformer
      "great product").score = 61/100 :=
  (C8_transformer_confidence_gate (fun _ => .error "unused")
    (fun _ => .ok ("POSITIVE", 61/100))
    "distilbert-base-uncased-finetuned-sst-2-english" "great product"
    "POSITIVE" (61/100) (by decide) rfl).2.1 rfl (by decide)

/-- C9: a provider exception (from initialization or analysis) is never
propagated: analyze_sentiment returns a neutral result with score 0,
confidence 0 and the error message in the breakdown. -/
theorem C9_provider_failure_degrades
    (vaderRun : String → Except String VaderScores)
    (transformerRun : String → Except String (String × ℚ)) (modelName : String)
    (provider : SentimentProvider) (text : String) (e : String)
    (htext : ¬(text = "" ∨ pyStrip text = ""))
    (hv : vaderRun text = .error e)
    (ht : transformerRun (truncate512 text) = .error e) :
    analyze_sentiment vaderRun transformerRun modelName provider text =
      { provider := provider.value, sentiment := "neutral", score := 0,
        confidence := 0, processing_time_ms := 0, breakdown := .error e } := by
  rw [analyze_sentiment.eq_def, if_neg htext]
  cases provider with
  | vader => rw [hv]
  | transformer => rw [ht]

/-- Witness for C9 with providers that raise a missing-dependency error. -/
theorem C9_provider_failure_degrades_witness :
    analyze_sentiment (fun _ => .error "vaderSentiment not installed")
      (fun _ => .error "vaderSentiment not installed")
      "distilbert-base-uncased-finetuned-sst-2-english" .vader "hello" =
      { provider := "vader", sentiment := "neutral", score := 0,
        confidence := 0, processing_time_ms := 0,
        breakdown := .error "vaderSentiment not installed" } :=
  C9_provider_failure_degrades (fun _ => .error "vaderSentiment not installed")
    (fun _ => .error "vaderSentiment not installed")
    "distilbert-base-uncased-finetuned-sst-2-english" .vader "hello"
    "vaderSentiment not installed" (by decide) rfl rfl

/-! ## Synthetic customer history (mock_history.py)

The seeded Mersenne-Twister generator is modelled as an oracle: an
RngStream supplies the value of every random call the generator makes,
and Env maps each versioned seed string to a stream (the same seed
string always yields the same stream, which is the property the md5
seeding guarantees).  Per sorted interaction index i, tsDraw i supplies
the three timestamp draws and iDraw i the per-interaction draws.
Timestamps are rational seconds (the code stores their ISO-8601 text,
an order-isomorphic representation); admissibility predicates record
the achievable range of each draw. -/

/-- The three random draws used to build one timestamp:
rng.random(), rng.randint(8, 20), rng.randint(0, 59). -/
structure TsDraw where
  dayFrac : ℚ
  hour : ℤ
  minute : ℤ
deriving DecidableEq

def TsDraw.Adm (d : TsDraw) : Prop :=
  0 ≤ d.dayFrac ∧ d.dayFrac < 1 ∧ 8 ≤ d.hour ∧ d.hour ≤ 20 ∧
  0 ≤ d.minute ∧ d.minute ≤ 59

instance (d : TsDraw) : Decidable d.Adm := by
  unfold TsDraw.Adm
  infer_instance

/-- The random draws used to build one interaction record, in the order
the code makes them: channel selection (rng.choices), the volatile trend
draw (rng.uniform(-0.3, 0.3), consumed only for the volatile trend), the
noise draw (rng.uniform(-av, av)), confidence (rng.randint(65, 95)),
summary choice (rng.choice), the resolution coin (rng.random(), consumed
only for negative labels), resolution choice (rng.choice) and the agent
number (rng.randint(100, 999)).  The uniform draws are given as the
underlying random() value in [0, 1). -/
structure IDraw where
  channelU : ℚ
  volU : ℚ
  noiseU : ℚ
  confidence : ℤ
  summaryPick : ℕ
  resolutionU : ℚ
  resolutionPick : ℕ
  agentN : ℤ
deriving DecidableEq

def IDraw.Adm (d : IDraw) : Prop :=
  0 ≤ d.channelU ∧ d.channelU < 1 ∧ 0 ≤ d.volU ∧ d.volU < 1 ∧
  0 ≤ d.noiseU ∧ d.noiseU < 1 ∧ 65 ≤ d.confidence ∧ d.confidence ≤ 95 ∧
  0 ≤ d.resolutionU ∧ d.resolutionU < 1 ∧ d.resolutionPick < 3 ∧
  100 ≤ d.agentN ∧ d.agentN ≤ 999

instance (d : IDraw) : Decidable d.Adm := by
  unfold IDraw.Adm
  infer_instance

/-- The random stream obtained from one seed: the interaction-count draw,
the persona fallback choice (for customers outside the demo registry),
and the indexed timestamp and interaction draws. -/
structure RngStream where
  count : ℕ
  personaPick : ℕ
  tsDraw : ℕ → TsDraw
  iDraw : ℕ → IDraw

/-- The call environment: datetime.now() in seconds, and the map from
versioned seed strings to random streams. -/
structure Env where
  now : ℚ
  stream : String → RngStream

structure PersonaCfg where
  base_sentiment : ℚ
  variance : ℚ
  trend : String
  interaction_frequency : String
deriving DecidableEq

def satisfiedLoyalCfg : PersonaCfg :=
  { base_sentiment := 45/100, variance := 35/100, trend := "stable",
    interaction_frequency := "low" }

/-- CUSTOMER_PERSONAS, in the dict's insertion order. -/
def CUSTOMER_PERSONAS : List (String × PersonaCfg) :=
  [("satisfied_loyal", satisfiedLoyalCfg),
   ("frustrated_at_risk",
     { base_sentiment := -(15/100), variance := 50/100, trend := "declining",
       interaction_frequency := "medium" }),
   ("new_curious",
     { base_sentiment := 10/100, variance := 45/100, trend := "improving",
       interaction_frequency := "low" }),
   ("volatile_mixed",
     { base_sentiment := 0, variance := 60/100, trend := "volatile",
       interaction_frequency := "low" }),
   ("recovering_churned",
     { base_sentiment := 10/100, variance := 40/100, trend := "improving",
       interaction_frequency := "low" })]

structure DemoCustomer where
  name : String
  email : String
  tier : String
  persona : String
  account_age : String
deriving DecidableEq

/-- DEMO_CUSTOMERS, in the dict's insertion order. -/
def DEMO_CUSTOMERS : List (String × DemoCustomer) :=
  [("CUST-12345", ⟨"Sarah Johnson", "s.johnson@email.com", "Platinum",
      "recovering_churned", "4 years"⟩),
   ("CUST-67890", ⟨"Michael Chen", "m.chen@company.com", "Gold",
      "satisfied_loyal", "6 years"⟩),
   ("CUST-11111", ⟨"Emily Rodriguez", "e.rodriguez@email.com", "Silver",
      "new_curious", "3 months"⟩),
   ("CUST-22222", ⟨"James Wilson", "j.wilson@business.com", "Enterprise",
      "volatile_mixed", "2 years"⟩),
   ("CUST-33333", ⟨"Amanda Foster", "a.foster@startup.io", "Gold",
      "recovering_churned", "1 year"⟩)]

def DemoCustomer.toPairs (c : DemoCustomer) : List (String × String) :=
  [("name", c.name), ("email", c.email), ("tier", c.tier),
   ("persona", c.persona), ("account_age", c.account_age)]

/-- MOCK_DATA_VERSION together with the seed string
f"{MOCK_DATA_VERSION}_{customer_id}_{days}" built by _get_seeded_random
from generate_customer_history's f"{customer_id}_{days}". -/
def mkSeed (customer_id : String) (days : ℤ) : String :=
  "v2_" ++ customer_id ++ "_" ++ toString days

/-- _generate_sentiment_score's trend modifier.  For the volatile trend,
vol is the oracle value of rng.uniform(-0.3, 0.3). -/
def trendModifier (trend : String) (progress vol : ℚ) : ℚ :=
  if trend = "improving" then -(3/10) + progress * (7/10)
  else if trend = "declining" then 3/10 - progress * (7/10)
  else if trend = "volatile" then vol
  else 0

/-- _score_to_label. -/
def scoreToLabel (score : ℚ) : String :=
  if score ≥ 15/100 then "positive"
  else if score ≤ -(15/100) then "negative"
  else "neutral"

/-- _get_interaction_count's lookup table: the (min, max) randint range
for a frequency and period, with the code's (3, 4) default. -/
def countRange (frequency : String) (days : ℤ) : ℕ × ℕ :=
  let counts : List (String × (ℕ × ℕ)) :=
    if days ≤ 30 then [("low", (1, 2)), ("medium", (2, 2)), ("high", (2, 3))]
    else if days ≤ 60 then [("low", (2, 3)), ("medium", (2, 3)), ("high", (3, 4))]
    else [("low", (3, 4)), ("medium", (3, 5)), ("high", (4, 5))]
  (counts.lookup frequency).getD (3, 4)

/-- rng.choices(channels, weights=[0.35, 0.30, 0.20, 0.10, 0.05])[0]:
bisect over the cumulative weights at random() * total. -/
def chooseWeighted (x : ℚ) : String :=
  if x < 35/100 then "call"
  else if x < 65/100 then "chat"
  else if x < 85/100 then "email"
  else if x < 95/100 then "survey"
  else "social"

/-- The CHANNEL_CONFIG summary pools, per channel and sentiment label. -/
def channelSummaries (channel label : String) : List String :=
  if channel = "call" then
    if label = "positive" then
      ["Called to thank support for quick resolution",
       "Appreciation call for excellent service",
       "Called to provide positive feedback",
       "Renewal call - very satisfied with service",
       "Quick call - issue resolved immediately"]
    else if label = "neutral" then
      ["Called about billing inquiry",
       "Phone support for account settings update",
       "Follow-up call on previous ticket",
       "Phone verification for account change",
       "Called about promotional offer details"]
    else
      ["Complaint call about service quality",
       "Called frustrated about recurring issue",
       "Voice call regarding service outage",
       "Called to escalate unresolved problem",
       "Called to cancel due to poor experience"]
  else if channel = "chat" then
    if label = "positive" then
      ["Chat feedback - great support experience",
       "Quick chat - agent resolved instantly",
       "Chat to express satisfaction with new feature",
       "Positive chat about recent upgrade"]
    else if label = "neutral" then
      ["Web chat asking about features",
       "Chat inquiry about pricing",
       "Chat about order status",
       "Live chat billing question",
       "Quick question via chat widget"]
    else
      ["Chat complaint about wait times",
       "Frustrated chat - issue not resolved",
       "Chat about ongoing service problems",
       "Bot-to-agent transfer - complex issue"]
  else if channel = "email" then
    if label = "positive" then
      ["Email thanking team for support",
       "Positive feedback on recent changes",
       "Email praising customer service rep",
       "Satisfied response to resolution email"]
    else if label = "neutral" then
      ["Email inquiry about documentation",
       "Account verification email",
       "Email about contract renewal",
       "Feature request submission"]
    else
      ["Email complaint escalation",
       "Email about invoice discrepancy",
       "Email requesting refund",
       "Frustrated email about delayed response"]
  else if channel = "survey" then
    if label = "positive" then
      ["NPS survey - promoter score (9-10)",
       "Excellent rating on satisfaction survey",
       "Positive product feedback survey"]
    else if label = "neutral" then
      ["NPS survey - passive score (7-8)",
       "Annual customer survey response",
       "Quick pulse survey completed"]
    else
      ["NPS survey - detractor score (0-6)",
       "Low satisfaction survey rating",
       "Critical feedback in service survey"]
  else
    if label = "positive" then
      ["Social media praise/testimonial",
       "Positive public review",
       "Twitter shoutout to support team"]
    else if label = "neutral" then
      ["Facebook message inquiry",
       "LinkedIn comment interaction",
       "Instagram DM support question"]
    else
      ["Social media complaint",
       "Negative public review",
       "Twitter complaint about service"]

/-- Python format "{n:04d}". -/
def pad4 (n : ℕ) : String :=
  let s := toString n
  String.mk (List.replicate (4 - s.length) '0') ++ s

structure Interaction where
  id : String
  customer_id : String
  timestamp : ℚ
  channel : String
  sentiment_score : ℚ
  sentiment_label : String
  confidence : ℤ
  summary : String
  agent_id : Option String
  resolution : String
deriving DecidableEq

/-- The timedelta added to start_date for one timestamp, in seconds:
days=rng.random()*days, hours=rng.randint(8, 20), minutes=rng.randint(0, 59). -/
def tsOffset (days : ℤ) (d : TsDraw) : ℚ :=
  d.dayFrac * ((days : ℚ) * 86400) + (d.hour : ℚ) * 3600 + (d.minute : ℚ) * 60

/-- The sentiment score of sorted interaction index i at timestamp ts:
_generate_sentiment_score inlined with the arguments generate passes to
it: progress = elapsed fraction of the period, the trend modifier, and
uniform noise of amplitude variance * 0.6, clamped to [-1, 1]. -/
def rawScore (rng : RngStream) (cfg : PersonaCfg) (days : ℤ) (start : ℚ)
    (i : ℕ) (ts : ℚ) : ℚ :=
  let d := rng.iDraw i
  let progress := (ts - start) / ((days : ℚ) * 86400)
  let vol := -(3/10) + (6/10) * d.volU
  let actual_variance := cfg.variance * (6/10)
  let noise := -actual_variance + (2 * actual_variance) * d.noiseU
  max (-1) (min 1 (cfg.base_sentiment + trendModifier cfg.trend progress vol + noise))

/-- The loop body of generate_customer_history for sorted index i and
timestamp ts. -/
def mkInteraction (rng : RngStream) (cfg : PersonaCfg) (customer_id : String)
    (days : ℤ) (start : ℚ) (i : ℕ) (ts : ℚ) : Interaction :=
  let d := rng.iDraw i
  let channel := chooseWeighted d.channelU
  let score := rawScore rng cfg days start i ts
  let label := scoreToLabel score
  { id := "INT-" ++ customer_id ++ "-" ++ pad4 (i + 1)
    customer_id := customer_id
    timestamp := ts
    channel := channel
    sentiment_score := pyRound score 3
    sentiment_label := label
    confidence := d.confidence
    summary := (channelSummaries channel label).getD d.summaryPick ""
    agent_id :=
      if channel = "call" ∨ channel = "chat" then
        some ("AGENT-" ++ toString d.agentN)
      else none
    resolution :=
      if label = "positive" then "resolved"
      else if label = "negative" ∧ 3/5 < d.resolutionU then "escalated"
      else (["resolved", "pending", "resolved"]).getD d.resolutionPick "" }

/-- The persona resolution of generate_customer_history when called with
persona=None (the only way get_customer_history calls it): the demo
registry, else a seeded-random choice among the persona keys. -/
def resolvePersona (rng : RngStream) (customer_id : String) : String :=
  match DEMO_CUSTOMERS.lookup customer_id with
  | some info => info.persona
  | none => (CUSTOMER_PERSONAS.map Prod.fst).getD rng.personaPick "satisfied_loyal"

/-- The persona configuration generate resolves:
CUSTOMER_PERSONAS.get(persona, CUSTOMER_PERSONAS of satisfied_loyal). -/
def resolvedCfg (env : Env) (customer_id : String) (days : ℤ) : PersonaCfg :=
  (CUSTOMER_PERSONAS.lookup
    (resolvePersona (env.stream (mkSeed customer_id days)) customer_id)).getD
    satisfiedLoyalCfg

/-- The sorted timestamp list generate builds: one start + timedelta per
index below the interaction count, sorted ascending. -/
def genTimestamps (env : Env) (customer_id : String) (days : ℤ) : List ℚ :=
  let rng := env.stream (mkSeed customer_id days)
  let start := env.now - (days : ℚ) * 86400
  List.insertionSort (· ≤ ·)
    ((List.range rng.count).map (fun i => start + tsOffset days (rng.tsDraw i)))

/-- generate_customer_history. -/
def generate_customer_history (env : Env) (customer_id : String) (days : ℤ) :
    List Interaction :=
  let rng := env.stream (mkSeed customer_id days)
  let cfg := resolvedCfg env customer_id days
  let start := env.now - (days : ℚ) * 86400
  (genTimestamps env customer_id days).enum.map
    (fun p => mkInteraction rng cfg customer_id days start p.1 p.2)

structure SentDist where
  positive : ℕ
  neutral : ℕ
  negative : ℕ
deriving DecidableEq

structure Summary where
  total_interactions : ℕ
  average_sentiment : ℚ
  trend : String
  channel_breakdown : List (String × ℕ)
  sentiment_distribution : SentDist
  period_days : ℤ
  last_interaction : Option ℚ
deriving DecidableEq

/-- calculate_sentiment_summary.  channel_breakdown iterates Python's
set(channels); the embedding fixes first-occurrence order, which does not
affect any claim. -/
def calculate_sentiment_summary (interactions : List Interaction) : Summary :=
  match interactions with
  | [] =>
    { total_interactions := 0, average_sentiment := 0, trend := "stable",
      channel_breakdown := [], sentiment_distribution := ⟨0, 0, 0⟩,
      period_days := 0, last_interaction := none }
  | h :: t =>
    let ints := h :: t
    let scores := ints.map (·.sentiment_score)
    let labels := ints.map (·.sentiment_label)
    let channels := ints.map (·.channel)
    let avg_sentiment := scores.sum / (scores.length : ℚ)
    let third := max 1 (scores.length / 3)
    let first_third_avg := (scores.take third).sum / (third : ℚ)
    let last_third_avg := (scores.drop (scores.length - third)).sum / (third : ℚ)
    let diff := last_third_avg - first_third_avg
    let trend :=
      if diff > 15/100 then "improving"
      else if diff < -(15/100) then "declining"
      else "stable"
    { total_interactions := ints.length
      average_sentiment := pyRound avg_sentiment 3
      trend := trend
      channel_breakdown := channels.dedup.map (fun ch => (ch, channels.count ch))
      sentiment_distribution :=
        ⟨labels.count "positive", labels.count "neutral", labels.count "negative"⟩
      period_days :=
        if 2 ≤ ints.length then
          ⌊(((ints.getLast?.getD h).timestamp - h.timestamp) / 86400)⌋
        else 0
      last_interaction := some (ints.getLast?.getD h).timestamp }

structure HistoryEntry where
  customer_id : String
  customer_info : List (String × String)
  interactions : List Interaction
  summary : Summary
deriving DecidableEq

/-- get_customer_history, cache state passed explicitly: coerce days,
look up the cache, otherwise generate and insert. -/
def get_customer_history (env : Env) (cache : List (String × HistoryEntry))
    (customer_id : String) (days : ℤ) : HistoryEntry × List (String × HistoryEntry) :=
  let days := if days = 30 ∨ days = 60 ∨ days = 90 then days else 90
  let key := customer_id ++ "_" ++ toString days
  match cache.lookup key with
  | some entry => (entry, cache)
  | none =>
    let interactions := generate_customer_history env customer_id days
    let summary := calculate_sentiment_summary interactions
    let entry : HistoryEntry :=
      { customer_id := customer_id
        customer_info :=
          ((DEMO_CUSTOMERS.lookup customer_id).map DemoCustomer.toPairs).getD
            [("name", "Unknown Customer")]
        interactions := interactions
        summary := summary }
    (entry, (key, entry) :: cache)

/-- A trivial environment used by concrete witnesses. -/
def dfltIDraw : IDraw := ⟨0, 0, 0, 65, 0, 0, 0, 100⟩

def trivEnv : Env :=
  ⟨7776000, fun _ => ⟨2, 0, fun _ => ⟨0, 8, 0⟩, fun _ => dfltIDraw⟩⟩

/-- C2: two successive get_customer_history calls with identical
arguments, the second seeing the cache state left by the first and no
reset in between, return field-for-field identical entries (same
interactions list and same summary), even if the wall clock and the
random streams changed between the calls. -/
theorem C2_get_history_idempotent (env1 env2 : Env)
    (cache : List (String × HistoryEntry)) (customer_id : String) (days : ℤ) :
    (get_customer_history env2
      (get_customer_history env1 cache customer_id days).2 customer_id days).1 =
      (get_customer_history env1 cache customer_id days).1 := by
  unfold get_customer_history
  cases h : cache.lookup (customer_id ++ "_" ++
      toString (if days = 30 ∨ days = 60 ∨ days = 90 then days else 90)) with
  | some entry => simp [h]
  | none => simp [h, List.lookup]

/-- C6: a days value outside {30, 60, 90} is coerced to 90 before
generation and before forming the cache key, so the call behaves exactly
as a call with days = 90 (same returned entry and same cache update). -/
theorem C6_days_coerced (env : Env) (cache : List (String × HistoryEntry))
    (customer_id : String) (days : ℤ)
    (h : ¬(days = 30 ∨ days = 60 ∨ days = 90)) :
    get_customer_history env cache customer_id days =
      get_customer_history env cache customer_id 90 := by
  unfold get_customer_history
  rw [if_neg h, if_pos (by norm_num)]

/-- Witness for C6 at days = 45. -/
theorem C6_days_coerced_witness :
    ¬((45 : ℤ) = 30 ∨ (45 : ℤ) = 60 ∨ (45 : ℤ) = 90) ∧
    get_customer_history trivEnv [] "CUST-X" 45 =
      get_customer_history trivEnv [] "CUST-X" 90 :=
  ⟨by decide, C6_days_coerced trivEnv [] "CUST-X" 45 (by decide)⟩

/-- The window size the summary's trend rule uses: max(1, n // 3). -/
def summaryThird (n : ℕ) : ℕ := max 1 (n / 3)

/-- Mean sentiment score of the first max(1, n // 3) interactions. -/
def firstThirdAvg (ints : List Interaction) : ℚ :=
  ((ints.map (·.sentiment_score)).take (summaryThird ints.length)).sum /
    (summaryThird ints.length : ℚ)

/-- Mean sentiment score of the last max(1, n // 3) interactions. -/
def lastThirdAvg (ints : List Interaction) : ℚ :=
  ((ints.map (·.sentiment_score)).drop
      (ints.length - summaryThird ints.length)).sum /
    (summaryThird ints.length : ℚ)

theorem summary_trend_eq (ints : List Interaction) (h : ints ≠ []) :
    (calculate_sentiment_summary ints).trend =
      (if lastThirdAvg ints - firstThirdAvg ints > 15/100 then "improving"
       else if lastThirdAvg ints - firstThirdAvg ints < -(15/100) then "declining"
       else "stable") := by
  cases ints with
  | nil => exact absurd rfl h
  | cons a t =>
    simp [calculate_sentiment_summary, firstThirdAvg, lastThirdAvg, summaryThird,
      List.length_map]

/-- C5: for every non-empty interaction list the summary trend is decided
by comparing the mean of the first max(1, n // 3) scores with the mean of
the last max(1, n // 3) scores against the 0.15 thresholds; in particular
a first-third mean of 0.0 and a last-third mean of 0.20 yields
"improving". -/
theorem C5_trend_thirds_rule (interactions : List Interaction)
    (h : interactions ≠ []) :
    ((calculate_sentiment_summary interactions).trend =
      (if lastThirdAvg interactions - firstThirdAvg interactions > 15/100
       then "improving"
       else if lastThirdAvg interactions - firstThirdAvg interactions < -(15/100)
       then "declining"
       else "stable")) ∧
    (firstThirdAvg interactions = 0 → lastThirdAvg interactions = 20/100 →
      (calculate_sentiment_summary interactions).trend = "improving") := by
  refine ⟨summary_trend_eq interactions h, ?_⟩
  intro h0 h1
  rw [summary_trend_eq interactions h, h0, h1]
  norm_num

/-- A concrete interaction record used by witnesses. -/
def witInter (ts score : ℚ) (label : String) : Interaction :=
  ⟨"INT-W-0001", "CUST-W", ts, "call", score, label, 80, "s", none, "resolved"⟩

/-- Witness for C5 on a three-interaction list with first-third mean 0.0
and last-third mean 0.20. -/
theorem C5_trend_thirds_rule_witness :
    ([witInter 0 0 "neutral", witInter 10 0 "neutral",
      witInter 20 (20/100) "positive"] ≠ ([] : List Interaction)) ∧
    (calculate_sentiment_summary [witInter 0 0 "neutral", witInter 10 0 "neutral",
      witInter 20 (20/100) "positive"]).trend = "improving" :=
  ⟨by simp, (C5_trend_thirds_rule [witInter 0 0 "neutral", witInter 10 0 "neutral",
      witInter 20 (20/100) "positive"] (by simp)).2
    (by norm_num [firstThirdAvg, summaryThird, witInter, List.take_succ_cons])
    (by norm_num [lastThirdAvg, summaryThird, witInter, List.drop_succ_cons])⟩

/-- Hour of day of a timestamp given as seconds, as Python datetime.hour:
floor to seconds, floor-divide by 3600, mod 24. -/
def hourOfDay (t : ℚ) : ℤ := Int.emod (Int.ediv ⌊t⌋ 3600) 24

theorem gen_map_timestamp (env : Env) (customer_id : String) (days : ℤ) :
    (generate_customer_history env customer_id days).map (·.timestamp) =
      genTimestamps env customer_id days := by
  simp only [generate_customer_history, List.map_map]
  exact List.enum_map_snd _

theorem gen_length (env : Env) (customer_id : String) (days : ℤ) :
    (generate_customer_history env customer_id days).length =
      (env.stream (mkSeed customer_id days)).count := by
  simp [generate_customer_history, genTimestamps, List.enum_length,
    List.length_insertionSort]

theorem genTimestamps_sorted (env : Env) (customer_id : String) (days : ℤ) :
    List.Sorted (· ≤ ·) (genTimestamps env customer_id days) := by
  simp only [genTimestamps]
  exact List.sorted_insertionSort _ _

theorem genTimestamps_mem {env : Env} {customer_id : String} {days : ℤ} {t : ℚ}
    (h : t ∈ genTimestamps env customer_id days) :
    ∃ i < (env.stream (mkSeed customer_id days)).count,
      t = (env.now - (days : ℚ) * 86400) +
        tsOffset days ((env.stream (mkSeed customer_id days)).tsDraw i) := by
  simp only [genTimestamps] at h
  rw [List.mem_insertionSort] at h
  rcases List.mem_map.mp h with ⟨i, hi, rfl⟩
  exact ⟨i, List.mem_range.mp hi, rfl⟩

theorem tsOffset_bounds {days : ℤ} (hd : 0 ≤ days) {d : TsDraw} (h : d.Adm) :
    8 * 3600 ≤ tsOffset days d ∧
      tsOffset days d ≤ (days : ℚ) * 86400 + 20 * 3600 + 59 * 60 := by
  obtain ⟨h1, h2, h3, h4, h5, h6⟩ := h
  unfold tsOffset
  have hd0 : (0 : ℚ) ≤ (days : ℚ) := by exact_mod_cast hd
  have hD : (0 : ℚ) ≤ (days : ℚ) * 86400 := by nlinarith
  constructor
  · have hfrac : 0 ≤ d.dayFrac * ((days : ℚ) * 86400) := mul_nonneg h1 hD
    have hh : (8 : ℚ) ≤ (d.hour : ℚ) := by exact_mod_cast h3
    have hm : (0 : ℚ) ≤ (d.minute : ℚ) := by exact_mod_cast h5
    nlinarith
  · have hfrac : d.dayFrac * ((days : ℚ) * 86400) ≤ (days : ℚ) * 86400 := by nlinarith
    have hh : (d.hour : ℚ) ≤ 20 := by exact_mod_cast h4
    have hm : (d.minute : ℚ) ≤ 59 := by exact_mod_cast h6
    nlinarith

/-- C3 (amended): the generated interactions are ordered by ascending
timestamp, and every timestamp equals start plus a timedelta built from
an admissible draw: a continuous fraction of the whole period plus an
hour offset drawn from [8, 20] (inclusive) plus a minute offset from
[0, 59] -- so each timestamp lies in
[start + 8h, now + 20h59m], but its hour of day is not constrained to
[8, 20), since the hour offset is added to a continuous base. -/
theorem C3_timestamps_sorted_and_offsets (env : Env) (customer_id : String)
    (days : ℤ) (hdays : 0 ≤ days)
    (hadm : ∀ i, ((env.stream (mkSeed customer_id days)).tsDraw i).Adm) :
    List.Sorted (· ≤ ·)
      ((generate_customer_history env customer_id days).map (·.timestamp)) ∧
    ∀ inter ∈ generate_customer_history env customer_id days,
      ∃ i < (env.stream (mkSeed customer_id days)).count,
        inter.timestamp = (env.now - (days : ℚ) * 86400) +
          tsOffset days ((env.stream (mkSeed customer_id days)).tsDraw i) ∧
        (env.now - (days : ℚ) * 86400) + 8 * 3600 ≤ inter.timestamp ∧
        inter.timestamp ≤ env.now + 20 * 3600 + 59 * 60 := by
  constructor
  · rw [gen_map_timestamp]
    exact genTimestamps_sorted env customer_id days
  · intro inter hmem
    have hts : inter.timestamp ∈
        (generate_customer_history env customer_id days).map (·.timestamp) :=
      List.mem_map_of_mem _ hmem
    rw [gen_map_timestamp] at hts
    rcases genTimestamps_mem hts with ⟨i, hi, heq⟩
    have hb := tsOffset_bounds hdays (hadm i)
    refine ⟨i, hi, heq, ?_, ?_⟩
    · rw [heq]; linarith [hb.1]
    · rw [heq]; linarith [hb.2]

/-- Witness for amended C3 at a concrete two-draw environment. -/
theorem C3_timestamps_sorted_and_offsets_witness :
    (0 : ℤ) ≤ 90 ∧
    List.Sorted (· ≤ ·)
      ((generate_customer_history trivEnv "CUST-W" 90).map (·.timestamp)) :=
  ⟨by decide, (C3_timestamps_sorted_and_offsets trivEnv "CUST-W" 90 (by decide)
    (fun i => by norm_num [TsDraw.Adm, trivEnv])).1⟩

/-- A concrete environment refuting the business-hours reading of C3:
now is midnight-aligned, the single draw takes the inclusive upper
randint bound 20 for the hour offset. -/
def envC3 : Env :=
  ⟨7776000, fun _ => ⟨1, 0, fun _ => ⟨0, 20, 0⟩, fun _ => dfltIDraw⟩⟩

theorem envC3_timestamps : genTimestamps envC3 "CUST-0" 90 = [72000] := by
  simp [genTimestamps, envC3, tsOffset, List.insertionSort, List.orderedInsert,
    List.range_succ]
  norm_num

/-- Counterexample to C3 as stated: at an admissible draw, the generated
interaction's timestamp has hour of day 20, outside [8, 20). -/
theorem C3_hour_of_day_counterexample :
    (∀ i, ((envC3.stream (mkSeed "CUST-0" 90)).tsDraw i).Adm) ∧
    ∃ inter ∈ generate_customer_history envC3 "CUST-0" 90,
      ¬(8 ≤ hourOfDay inter.timestamp ∧ hourOfDay inter.timestamp < 20) := by
  constructor
  · intro i
    norm_num [TsDraw.Adm, envC3]
  · have hgen : generate_customer_history envC3 "CUST-0" 90 =
        [mkInteraction (envC3.stream (mkSeed "CUST-0" 90))
          (resolvedCfg envC3 "CUST-0" 90) "CUST-0" 90
          (envC3.now - ((90 : ℤ) : ℚ) * 86400) 0 72000] := by
      simp only [generate_customer_history, envC3_timestamps]
      rfl
    refine ⟨_, by rw [hgen]; exact List.mem_singleton.mpr rfl, ?_⟩
    have hts : (mkInteraction (envC3.stream (mkSeed "CUST-0" 90))
        (resolvedCfg envC3 "CUST-0" 90) "CUST-0" 90
        (envC3.now - ((90 : ℤ) : ℚ) * 86400) 0 72000).timestamp = 72000 := rfl
    rw [hts]
    have hh : hourOfDay (72000 : ℚ) = 20 := by
      rw [hourOfDay, show ⌊(72000 : ℚ)⌋ = 72000 by norm_num]
      decide
    rw [hh]
    decide

theorem roundHalfEven_bounds (q : ℚ) :
    q - 1/2 ≤ (roundHalfEven q : ℚ) ∧ (roundHalfEven q : ℚ) ≤ q + 1/2 := by
  have hf0 : (⌊q⌋ : ℚ) ≤ q := Int.floor_le q
  have hf1 : q < (⌊q⌋ : ℚ) + 1 := Int.lt_floor_add_one q
  rw [show roundHalfEven q =
      (if q - (⌊q⌋ : ℚ) < 1/2 then ⌊q⌋
       else if 1/2 < q - (⌊q⌋ : ℚ) then ⌊q⌋ + 1
       else if ⌊q⌋ % 2 = 0 then ⌊q⌋ else ⌊q⌋ + 1) from rfl]
  split_ifs with h1 h2 h3 <;> constructor <;> push_cast <;> linarith

theorem roundHalfEven_mono {a b : ℚ} (h : a ≤ b) :
    roundHalfEven a ≤ roundHalfEven b := by
  by_contra hc
  push_neg at hc
  have h1 := roundHalfEven_bounds a
  have h2 := roundHalfEven_bounds b
  have hint : (roundHalfEven b : ℚ) + 1 ≤ (roundHalfEven a : ℚ) := by
    exact_mod_cast Int.add_one_le_iff.mpr hc
  have hab : a = b := by linarith
  subst hab
  omega

theorem pyRound_mono {a b : ℚ} (k : ℕ) (h : a ≤ b) : pyRound a k ≤ pyRound b k := by
  unfold pyRound
  have hp : (0 : ℚ) < 10 ^ k := by positivity
  refine (div_le_div_iff_of_pos_right hp).mpr ?_
  exact_mod_cast roundHalfEven_mono (mul_le_mul_of_nonneg_right h (le_of_lt hp))

theorem drop_length_sub_one {α : Type _} :
    ∀ l : List α, l.drop (l.length - 1) = (l[l.length - 1]?).toList := by
  intro l
  induction l with
  | nil => rfl
  | cons a t ih =>
    cases t with
    | nil => rfl
    | cons b t2 =>
      have hlen : (a :: b :: t2).length - 1 = ((b :: t2).length - 1) + 1 := by
        simp
      rw [hlen, List.drop_succ_cons, List.getElem?_cons_succ]
      exact ih

theorem take_drop_third_small (l : List ℚ) (h3 : 3 ≤ l.length) :
    (l.take 1).sum / ((1 : ℕ) : ℚ) = (l[0]?).getD 0 ∧
    (l.drop (l.length - 1)).sum / ((1 : ℕ) : ℚ) = (l[l.length - 1]?).getD 0 := by
  obtain ⟨a, t, rfl⟩ : ∃ a t, l = a :: t := by
    cases l with
    | nil => simp at h3
    | cons a t => exact ⟨a, t, rfl⟩
  constructor
  · simp
  · rw [drop_length_sub_one]
    have h0 : (a :: t).length - 1 < (a :: t).length := by simp
    rw [List.getElem?_eq_getElem h0]
    simp

theorem thirds_of_small (ints : List Interaction) (h3 : 3 ≤ ints.length)
    (h5 : ints.length ≤ 5) :
    firstThirdAvg ints = ((ints.map (·.sentiment_score))[0]?).getD 0 ∧
    lastThirdAvg ints = ((ints.map (·.sentiment_score))[ints.length - 1]?).getD 0 := by
  have hlm : (ints.map (·.sentiment_score)).length = ints.length :=
    List.length_map _ _
  have hthird : summaryThird ints.length = 1 := by
    unfold summaryThird
    omega
  have hres := take_drop_third_small (ints.map (·.sentiment_score)) (by omega)
  constructor
  · rw [firstThirdAvg, hthird]
    exact hres.1
  · rw [lastThirdAvg, hthird, ← hlm]
    exact hres.2

theorem gen_score_getElem? (env : Env) (customer_id : String) (days : ℤ) (j : ℕ) :
    ((generate_customer_history env customer_id days).map (·.sentiment_score))[j]? =
      ((genTimestamps env customer_id days)[j]?).map
        (fun ts => pyRound (rawScore (env.stream (mkSeed customer_id days))
          (resolvedCfg env customer_id days) days
          (env.now - (days : ℚ) * 86400) j ts) 3) := by
  simp only [generate_customer_history, List.map_map, List.getElem?_map,
    List.getElem?_enum]
  cases (genTimestamps env customer_id days)[j]? with
  | none => rfl
  | some t => rfl

theorem rawScore_mono_improving (rng : RngStream) (cfg : PersonaCfg) (days : ℤ)
    (start : ℚ) (i j : ℕ) (ts1 ts2 : ℚ)
    (htrend : cfg.trend = "improving") (hvar : 0 ≤ cfg.variance)
    (hD : 0 < (days : ℚ) * 86400) (hts : ts1 ≤ ts2)
    (hu : (rng.iDraw i).noiseU ≤ (rng.iDraw j).noiseU) :
    rawScore rng cfg days start i ts1 ≤ rawScore rng cfg days start j ts2 := by
  have hprog : (ts1 - start) / ((days : ℚ) * 86400) ≤
      (ts2 - start) / ((days : ℚ) * 86400) :=
    (div_le_div_iff_of_pos_right hD).mpr (by linarith)
  simp only [rawScore, htrend, trendModifier, if_pos]
  have hav : (0 : ℚ) ≤ 2 * (cfg.variance * (6/10)) := by linarith
  have hnoise : 2 * (cfg.variance * (6/10)) * (rng.iDraw i).noiseU ≤
      2 * (cfg.variance * (6/10)) * (rng.iDraw j).noiseU :=
    mul_le_mul_of_nonneg_left hu hav
  gcongr

theorem trend_cases (s0 sl : ℚ) (h : s0 ≤ sl) :
    (if sl - s0 > 15/100 then "improving"
     else if sl - s0 < -(15/100) then "declining" else "stable") = "improving" ∨
    (if sl - s0 > 15/100 then "improving"
     else if sl - s0 < -(15/100) then "declining" else "stable") = "stable" := by
  split_ifs with h1 h2
  · left; rfl
  · exfalso; linarith
  · right; rfl

/-- C4 (amended): for get_history("CUST-12345", 90) (persona
recovering_churned, trend "improving") the trend-modifier ramp is
non-decreasing in progress, so whenever the uniform-noise draw of the
last (sorted) interaction is at least that of the first, the summary
trend is "improving" or "stable".  (Without that condition on the noise
draws the trend can be "declining": the noise amplitude 0.24 on each
endpoint can outweigh the non-negative modifier slope, see the
counterexample.) -/
theorem C4_trend_not_declining_of_noise_mono (env : Env)
    (h3 : 3 ≤ (env.stream (mkSeed "CUST-12345" 90)).count)
    (h4 : (env.stream (mkSeed "CUST-12345" 90)).count ≤ 4)
    (hu : ((env.stream (mkSeed "CUST-12345" 90)).iDraw 0).noiseU ≤
      ((env.stream (mkSeed "CUST-12345" 90)).iDraw
        ((env.stream (mkSeed "CUST-12345" 90)).count - 1)).noiseU) :
    (get_customer_history env [] "CUST-12345" 90).1.summary.trend = "improving" ∨
    (get_customer_history env [] "CUST-12345" 90).1.summary.trend = "stable" := by
  have hsum : (get_customer_history env [] "CUST-12345" 90).1.summary =
      calculate_sentiment_summary
        (generate_customer_history env "CUST-12345" 90) := rfl
  have hlen : (generate_customer_history env "CUST-12345" 90).length =
      (env.stream (mkSeed "CUST-12345" 90)).count :=
    gen_length env "CUST-12345" 90
  have hne : generate_customer_history env "CUST-12345" 90 ≠ [] := by
    intro h0
    rw [h0] at hlen
    simp at hlen
    omega
  have hcfg : resolvedCfg env "CUST-12345" 90 =
      ⟨10/100, 40/100, "improving", "low"⟩ := rfl
  have hT : (genTimestamps env "CUST-12345" 90).length =
      (env.stream (mkSeed "CUST-12345" 90)).count := by
    simp [genTimestamps, List.length_insertionSort]
  have h0lt : 0 < (genTimestamps env "CUST-12345" 90).length := by omega
  have hllt : (env.stream (mkSeed "CUST-12345" 90)).count - 1 <
      (genTimestamps env "CUST-12345" 90).length := by omega
  have hsorted : List.Sorted (· ≤ ·) (genTimestamps env "CUST-12345" 90) :=
    genTimestamps_sorted env "CUST-12345" 90
  have hmonoT : (genTimestamps env "CUST-12345" 90).get ⟨0, h0lt⟩ ≤
      (genTimestamps env "CUST-12345" 90).get
        ⟨(env.stream (mkSeed "CUST-12345" 90)).count - 1, hllt⟩ :=
    hsorted.rel_get_of_le (Fin.mk_le_mk.mpr (by omega))
  have hs0 := gen_score_getElem? env "CUST-12345" 90 0
  have hsl := gen_score_getElem? env "CUST-12345" 90
    ((env.stream (mkSeed "CUST-12345" 90)).count - 1)
  rw [List.getElem?_eq_getElem h0lt] at hs0
  rw [List.getElem?_eq_getElem hllt] at hsl
  obtain ⟨hfirst, hlast⟩ := thirds_of_small
    (generate_customer_history env "CUST-12345" 90) (by omega) (by omega)
  rw [hlen] at hlast
  have hscore : pyRound (rawScore (env.stream (mkSeed "CUST-12345" 90))
      (resolvedCfg env "CUST-12345" 90) 90 (env.now - ((90 : ℤ) : ℚ) * 86400) 0
      ((genTimestamps env "CUST-12345" 90).get ⟨0, h0lt⟩)) 3 ≤
      pyRound (rawScore (env.stream (mkSeed "CUST-12345" 90))
      (resolvedCfg env "CUST-12345" 90) 90 (env.now - ((90 : ℤ) : ℚ) * 86400)
      ((env.stream (mkSeed "CUST-12345" 90)).count - 1)
      ((genTimestamps env "CUST-12345" 90).get
        ⟨(env.stream (mkSeed "CUST-12345" 90)).count - 1, hllt⟩)) 3 := by
    refine pyRound_mono 3 (rawScore_mono_improving _ _ _ _ _ _ _ _
      (by rw [hcfg]) (by rw [hcfg]; norm_num) (by push_cast; norm_num) hmonoT hu)
  rw [hsum, summary_trend_eq _ hne, hfirst, hlast, hs0, hsl]
  simp only [List.get_eq_getElem] at hscore
  simp only [Option.map_some', Option.getD_some]
  exact trend_cases _ _ hscore

/-- A three-interaction environment with constant draws, used as witness
for the amended C4. -/
def envW4 : Env :=
  ⟨7776000, fun _ => ⟨3, 0, fun _ => ⟨0, 8, 0⟩, fun _ => dfltIDraw⟩⟩

/-- Witness for amended C4 at a concrete three-interaction environment. -/
theorem C4_trend_not_declining_of_noise_mono_witness :
    3 ≤ (envW4.stream (mkSeed "CUST-12345" 90)).count ∧
    ((get_customer_history envW4 [] "CUST-12345" 90).1.summary.trend = "improving" ∨
     (get_customer_history envW4 [] "CUST-12345" 90).1.summary.trend = "stable") :=
  ⟨by decide,
    C4_trend_not_declining_of_noise_mono envW4 (by decide) (by decide) (le_refl _)⟩

/-- The environment refuting C4 as stated: now is midnight-aligned, count
is 3 (admissible for low frequency and 90 days), the three timestamps
fall at 08:00, 09:00 and 10:00 of the first period day, the first sorted
interaction draws noise close to the top of the range (u = 0.99) and the
last draws the bottom (u = 0). -/
def envC4 : Env :=
  ⟨7776000, fun _ =>
    ⟨3, 0,
     fun i => ⟨0, 8 + (i : ℤ), 0⟩,
     fun i =>
       if i = 0 then ⟨0, 0, 99/100, 70, 0, 0, 0, 100⟩
       else if i = 2 then ⟨0, 0, 0, 70, 0, 0, 0, 100⟩
       else ⟨0, 0, 1/2, 70, 0, 0, 0, 100⟩⟩⟩

theorem envC4_timestamps :
    genTimestamps envC4 "CUST-12345" 90 = [28800, 32400, 36000] := by
  have hr : List.range 3 = [0, 1, 2] := rfl
  simp only [genTimestamps, envC4, hr, List.map_cons, List.map_nil, tsOffset]
  norm_num [List.insertionSort, List.orderedInsert]

/-- Counterexample to C4 as stated: with admissible draws (count 3, in
the low-frequency 90-day randint range, every timestamp and interaction
draw in range), the summary trend of get_history("CUST-12345", 90) is
"declining" -- the endpoint noise (+0.2352 on the first interaction,
-0.24 on the last) outweighs the non-negative trend-modifier slope. -/
theorem C4_trend_counterexample :
    (∀ i < 3, ((envC4.stream (mkSeed "CUST-12345" 90)).tsDraw i).Adm) ∧
    (∀ i < 3, ((envC4.stream (mkSeed "CUST-12345" 90)).iDraw i).Adm) ∧
    ((countRange "low" 90).1 ≤ (envC4.stream (mkSeed "CUST-12345" 90)).count ∧
      (envC4.stream (mkSeed "CUST-12345" 90)).count ≤ (countRange "low" 90).2) ∧
    (get_customer_history envC4 [] "CUST-12345" 90).1.summary.trend =
      "declining" := by
  refine ⟨?_, ?_, ⟨by decide, by decide⟩, ?_⟩
  · intro i hi
    interval_cases i <;> norm_num [TsDraw.Adm, envC4]
  · intro i hi
    interval_cases i <;> norm_num [IDraw.Adm, envC4]
  · have hsum : (get_customer_history envC4 [] "CUST-12345" 90).1.summary =
        calculate_sentiment_summary
          (generate_customer_history envC4 "CUST-12345" 90) := rfl
    have hgen : generate_customer_history envC4 "CUST-12345" 90 =
        [mkInteraction (envC4.stream (mkSeed "CUST-12345" 90))
           (resolvedCfg envC4 "CUST-12345" 90) "CUST-12345" 90
           (envC4.now - ((90 : ℤ) : ℚ) * 86400) 0 28800,
         mkInteraction (envC4.stream (mkSeed "CUST-12345" 90))
           (resolvedCfg envC4 "CUST-12345" 90) "CUST-12345" 90
           (envC4.now - ((90 : ℤ) : ℚ) * 86400) 1 32400,
         mkInteraction (envC4.stream (mkSeed "CUST-12345" 90))
           (resolvedCfg envC4 "CUST-12345" 90) "CUST-12345" 90
           (envC4.now - ((90 : ℤ) : ℚ) * 86400) 2 36000] := by
      simp only [generate_customer_history, envC4_timestamps]
      rfl
    have hne : generate_customer_history envC4 "CUST-12345" 90 ≠ [] := by
      rw [hgen]
      simp
    have hlen3 : (generate_customer_history envC4 "CUST-12345" 90).length = 3 := by
      rw [hgen]
      rfl
    have hcfg : resolvedCfg envC4 "CUST-12345" 90 =
        (⟨10/100, 40/100, "improving", "low"⟩ : PersonaCfg) := rfl
    obtain ⟨hfirst, hlast⟩ := thirds_of_small
      (generate_customer_history envC4 "CUST-12345" 90)
      (by omega) (by omega)
    rw [hlen3] at hlast
    have hfv : firstThirdAvg (generate_customer_history envC4 "CUST-12345" 90) =
        19/500 := by
      rw [hfirst, hgen, hcfg]
      norm_num [mkInteraction, rawScore, envC4, trendModifier, pyRound,
        roundHalfEven, min_def, max_def]
    have hlv : lastThirdAvg (generate_customer_history envC4 "CUST-12345" 90) =
        -(437/1000) := by
      rw [hlast, hgen, hcfg]
      norm_num [mkInteraction, rawScore, envC4, trendModifier, pyRound,
        roundHalfEven, min_def, max_def]
    rw [hsum, summary_trend_eq _ hne, hfv, hlv]
    norm_num
